import Mathlib

/-!
Shallow embedding of the cbot-farm backtesting core (Python) in Lean 4.

Python floats are modelled as exact rationals (`ℚ`), Python ints as `ℤ`/`ℕ`,
`None`-able series elements as `Option ℚ`, and raising code as `Except`.
`math.sqrt` is irrational-valued, so functions that need it take an explicit
`sqrtQ : ℚ → ℚ` parameter standing for the float square root; no claim below
depends on its values.  Sources: `src/cbot_farm/indicators.py`,
`src/cbot_farm/backtest.py`, `src/cbot_farm/param_optimization.py`,
`src/bots/base.py`, `src/bots/ema_cross_atr.py`,
`src/scripts/backtrader_parity.py`.
-/

deriving instance DecidableEq for Except

namespace CbotFarm

/-- Floor of a rational, as a kernel-computable integer division. -/
def ratFloor (x : ℚ) : ℤ := Int.fdiv x.num x.den

/-- Ceiling of a rational. -/
def ratCeil (x : ℚ) : ℤ := -ratFloor (-x)

/-- Python `int(x)` on a float: truncation toward zero. -/
def ratTrunc (x : ℚ) : ℤ := if 0 ≤ x then ratFloor x else ratCeil x

/-- Python `round(x)` to an integer: round-half-to-even (banker's rounding),
modelled exactly on `ℚ`; away from ties this is ordinary rounding to
nearest. -/
def roundHalfEven (x : ℚ) : ℤ :=
  if x - ratFloor x = (1 : ℚ) / 2 then
    (if ratFloor x % 2 = 0 then ratFloor x else ratFloor x + 1)
  else ratFloor (x + 1 / 2)

/-- Python `round(x, d)`: round to `d` decimal places, ties to even. -/
def roundTo (d : ℕ) (x : ℚ) : ℚ := (roundHalfEven (x * 10 ^ d) : ℚ) / 10 ^ d

/-- Embedding of `statistics.mean`. -/
def listMean (xs : List ℚ) : ℚ := xs.sum / (xs.length : ℚ)

/-- Population variance; `statistics.pstdev` is its square root. -/
def pvariance (xs : List ℚ) : ℚ :=
  ((xs.map (fun x => (x - listMean xs) ^ 2)).sum) / (xs.length : ℚ)

/-! ## Indicator library (`src/cbot_farm/indicators.py`) -/

/-- The EMA recurrence `ema_prev = values[idx]*k + ema_prev*(1-k)` of
`ema_series` (indicators.py lines 17-19), emitting each smoothed value. -/
def emaFrom (k : ℚ) (prev : ℚ) : List ℚ → List ℚ
  | [] => []
  | v :: rest =>
    let nxt := v * k + prev * (1 - k)
    nxt :: emaFrom k nxt rest

/-- Embedding of `ema_series(values, period)` (indicators.py lines 4-20): raw values for
`period <= 1`, all-`None` when too short, else SMA seed at `period-1` and the
EMA recurrence afterwards. -/
def ema_series (values : List ℚ) (period : ℕ) : List (Option ℚ) :=
  if period ≤ 1 then values.map some
  else if values.length < period then List.replicate values.length none
  else
    let k : ℚ := 2 / ((period : ℚ) + 1)
    let seed := (values.take period).sum / (period : ℚ)
    List.replicate (period - 1) none ++
      (seed :: emaFrom k seed (values.drop period)).map some

/-- True range at index `i` (indicators.py lines 24-34): `h-l` at `i = 0`,
else `max(h-l, |h-prevClose|, |l-prevClose|)`. -/
def trAt (highs lows closes : List ℚ) : ℕ → ℚ
  | 0 => highs.getD 0 0 - lows.getD 0 0
  | i + 1 =>
    max (highs.getD (i + 1) 0 - lows.getD (i + 1) 0)
      (max |highs.getD (i + 1) 0 - closes.getD i 0|
        |lows.getD (i + 1) 0 - closes.getD i 0|)

/-- Wilder ATR recurrence (indicators.py lines 40-45), by offset from the seed
index `period-1`: offset 0 is the SMA seed of the first `period` true ranges,
offset `k+1` applies `(prev*(period-1) + tr[period+k]) / period`. -/
def atrRec (highs lows closes : List ℚ) (period : ℕ) : ℕ → ℚ
  | 0 => ((List.range period).map (trAt highs lows closes)).sum / (period : ℚ)
  | k + 1 =>
    (atrRec highs lows closes period k * ((period : ℚ) - 1) +
      trAt highs lows closes (period + k)) / (period : ℚ)

/-- Embedding of `atr_series` value at one index: `None` when the series is shorter than
`period`, before the seed index `period-1`, or out of range. -/
def atrAt (highs lows closes : List ℚ) (period : ℕ) (i : ℕ) : Option ℚ :=
  if closes.length < period ∨ closes.length ≤ i ∨ i + 1 < period then none
  else some (atrRec highs lows closes period (i + 1 - period))

/-- Embedding of `atr_series(highs, lows, closes, period)` (indicators.py lines 23-46). -/
def atr_series (highs lows closes : List ℚ) (period : ℕ) : List (Option ℚ) :=
  (List.range closes.length).map (atrAt highs lows closes period)

/-- Embedding of `100 - 100/(1+RS)` with `RS = avg_gain/avg_loss`, and `RS = 100` by
convention when `avg_loss = 0` (indicators.py lines 75-76, 82-83). -/
def rsiFrom (avg_gain avg_loss : ℚ) : ℚ :=
  let rs := if avg_loss ≠ 0 then avg_gain / avg_loss else 100
  100 - 100 / (1 + rs)

/-- Wilder smoothing loop of `rsi_series` (indicators.py lines 79-83) over the
remaining (gain, loss) pairs, emitting each RSI value. -/
def rsiSteps (period : ℕ) (avg_gain avg_loss : ℚ) : List (ℚ × ℚ) → List ℚ
  | [] => []
  | gl :: rest =>
    let ag := (avg_gain * ((period : ℚ) - 1) + gl.1) / (period : ℚ)
    let al := (avg_loss * ((period : ℚ) - 1) + gl.2) / (period : ℚ)
    rsiFrom ag al :: rsiSteps period ag al rest

/-- Signed price deltas split into gains and losses (indicators.py lines
62-65): entry `j` is `(max(Δ,0), max(-Δ,0))` for `Δ = values[j+1]-values[j]`. -/
def gainsLosses (values : List ℚ) : List (ℚ × ℚ) :=
  (List.range (values.length - 1)).map (fun j =>
    (max (values.getD (j + 1) 0 - values.getD j 0) 0,
     max (values.getD j 0 - values.getD (j + 1) 0) 0))

/-- Embedding of `rsi_series(values, period)` (indicators.py lines 49-85): all-`None` below
`period+1` values (the `len(gains) < period` re-check is equivalent), else
`period` leading `None`s, the seeded value at index `period`, then the Wilder
loop values. -/
def rsi_series (values : List ℚ) (period : ℕ) : List (Option ℚ) :=
  if values.length < period + 1 then List.replicate values.length none
  else
    let gl := gainsLosses values
    let avg_gain := ((gl.map Prod.fst).take period).sum / (period : ℚ)
    let avg_loss := ((gl.map Prod.snd).take period).sum / (period : ℚ)
    List.replicate period none ++
      (rsiFrom avg_gain avg_loss ::
        rsiSteps period avg_gain avg_loss (gl.drop period)).map some

/-- Embedding of `(highs[i] + lows[i]) / 2` (indicators.py line 198). -/
def hl2At (highs lows : List ℚ) (i : ℕ) : ℚ :=
  (highs.getD i 0 + lows.getD i 0) / 2

/-- Basic upper band `hl2 + multiplier*atr` (indicators.py lines 204-206),
defined exactly where the ATR is. -/
def basicUpperAt (highs lows closes : List ℚ) (period : ℕ) (mult : ℚ)
    (i : ℕ) : Option ℚ :=
  (atrAt highs lows closes period i).map (fun a => hl2At highs lows i + mult * a)

/-- Basic lower band `hl2 - multiplier*atr` (indicators.py lines 204-207). -/
def basicLowerAt (highs lows closes : List ℚ) (period : ℕ) (mult : ℚ)
    (i : ℕ) : Option ℚ :=
  (atrAt highs lows closes period i).map (fun a => hl2At highs lows i - mult * a)

/-- Final upper band with the ratchet rule (indicators.py lines 213-223): keep
the previous final upper unless the new basic upper is lower or the prior
close broke above the previous final upper. -/
def finalUpperAt (highs lows closes : List ℚ) (period : ℕ) (mult : ℚ) :
    ℕ → Option ℚ
  | 0 => basicUpperAt highs lows closes period mult 0
  | i + 1 =>
    match basicUpperAt highs lows closes period mult (i + 1) with
    | none => none
    | some bu =>
      match finalUpperAt highs lows closes period mult i with
      | none => some bu
      | some prev =>
        if bu < prev ∨ prev < closes.getD i 0 then some bu else some prev

/-- Final lower band with the symmetric ratchet rule (indicators.py lines
225-233). -/
def finalLowerAt (highs lows closes : List ℚ) (period : ℕ) (mult : ℚ) :
    ℕ → Option ℚ
  | 0 => basicLowerAt highs lows closes period mult 0
  | i + 1 =>
    match basicLowerAt highs lows closes period mult (i + 1) with
    | none => none
    | some bl =>
      match finalLowerAt highs lows closes period mult i with
      | none => some bl
      | some prev =>
        if prev < bl ∨ closes.getD i 0 < prev then some bl else some prev

/-- Trend flag after processing index `i` (indicators.py lines 236-249):
starts `True`, unchanged where the bands are undefined (the `continue`) and at
index 0, flips when the close crosses the opposite final band. -/
def isUptrendAt (highs lows closes : List ℚ) (period : ℕ) (mult : ℚ) :
    ℕ → Bool
  | 0 => true
  | i + 1 =>
    let f := isUptrendAt highs lows closes period mult i
    match finalUpperAt highs lows closes period mult (i + 1),
        finalLowerAt highs lows closes period mult (i + 1) with
    | some fu, some fl =>
      if f then (if closes.getD (i + 1) 0 ≤ fl then false else true)
      else (if fu ≤ closes.getD (i + 1) 0 then true else false)
    | _, _ => f

/-- Uptrend (support) output series element (indicators.py lines 251-254). -/
def uptrendAt (highs lows closes : List ℚ) (period : ℕ) (mult : ℚ)
    (i : ℕ) : Option ℚ :=
  match finalUpperAt highs lows closes period mult i,
      finalLowerAt highs lows closes period mult i with
  | some _, some fl =>
    if isUptrendAt highs lows closes period mult i then some fl else none
  | _, _ => none

/-- Downtrend (resistance) output series element (indicators.py lines
255-257). -/
def downtrendAt (highs lows closes : List ℚ) (period : ℕ) (mult : ℚ)
    (i : ℕ) : Option ℚ :=
  match finalUpperAt highs lows closes period mult i,
      finalLowerAt highs lows closes period mult i with
  | some fu, some _ =>
    if isUptrendAt highs lows closes period mult i then none else some fu
  | _, _ => none

/-- Embedding of `supertrend_series(highs, lows, closes, period, multiplier)`
(indicators.py lines 170-259): the pair of aligned uptrend/downtrend series.
The early `n < period` return is subsumed: `atrAt` is `None` everywhere then,
so both outputs are all-`None`. -/
def supertrend_series (highs lows closes : List ℚ) (period : ℕ) (mult : ℚ) :
    List (Option ℚ) × List (Option ℚ) :=
  ((List.range closes.length).map (uptrendAt highs lows closes period mult),
   (List.range closes.length).map (downtrendAt highs lows closes period mult))

/-! ## Parameter grid planner (`src/cbot_farm/param_optimization.py`) -/

/-- A typed candidate value: `_cast` produces a Python `int` or `float`
(param_optimization.py lines 25-28). -/
inductive PV where
  | pint (z : ℤ)
  | pfloat (q : ℚ)
deriving DecidableEq, Repr

/-- Embedding of `_cast(v, value_type)`: `int(round(v))` for `"int"`, else `float(v)`. -/
def castV (v : ℚ) (value_type : String) : PV :=
  if value_type = "int" then PV.pint (roundHalfEven v) else PV.pfloat v

/-- Embedding of `_decimal_places(step)` (param_optimization.py lines 7-11): the number of
decimals after formatting `step` to 12 decimal places and stripping trailing
zeros, i.e. the least `d ≤ 12` with `step` (rounded to 12 places) an exact
`d`-decimal number. -/
def decimalPlaces (step : ℚ) : ℕ :=
  ((List.range 13).find? (fun d => (roundTo 12 step * 10 ^ d).den = 1)).getD 12

/-- Embedding of `_frange(min_v, max_v, step)` (param_optimization.py lines 14-22): the
arithmetic sequence `min_v + k*step` while `≤ max_v + step/1000`, each value
rounded to the step's decimal precision.  Exact-rational model of the float
`while` loop; the `step ≤ 0` guard only closes a branch the caller
(`_values_from_spec`) already rejects. -/
def frange (min_v max_v step : ℚ) : List ℚ :=
  if step ≤ 0 then []
  else
    let decimals := decimalPlaces step
    let epsilon := step / 1000
    let count := (ratFloor ((max_v + epsilon - min_v) / step) + 1).toNat
    (List.range count).map (fun k => roundTo decimals (min_v + k * step))

/-- One parameter's spec mapping: recognized keys of `_values_from_spec` and
`build_param_plan`, each `Option`-valued to model dict-key absence. -/
structure ParamSpec where
  enabled : Option Bool
  type_ : Option String
  min : Option ℚ
  max : Option ℚ
  step : Option ℚ
  value : Option ℚ
deriving DecidableEq, Repr

/-- Embedding of `_values_from_spec(name, spec)` (param_optimization.py lines 31-53):
`Except.error` models `raise ValueError`. -/
def valuesFromSpec (name : String) (spec : ParamSpec) : Except String (List PV) :=
  let value_type := spec.type_.getD "float"
  let enabled := spec.enabled.getD true
  if enabled = false then
    match spec.value with
    | none =>
      Except.error
        ("Parameter \x27" ++ name ++ "\x27 is disabled but has no fixed \x27value\x27")
    | some v => Except.ok [castV v value_type]
  else
    match spec.min with
    | none => Except.error ("Parameter \x27" ++ name ++ "\x27 missing \x27min\x27")
    | some min_v =>
      match spec.max with
      | none => Except.error ("Parameter \x27" ++ name ++ "\x27 missing \x27max\x27")
      | some max_v =>
        match spec.step with
        | none => Except.error ("Parameter \x27" ++ name ++ "\x27 missing \x27step\x27")
        | some step =>
          if step ≤ 0 then
            Except.error ("Parameter \x27" ++ name ++ "\x27 has non-positive step")
          else if max_v < min_v then
            Except.error ("Parameter \x27" ++ name ++ "\x27 has min > max")
          else Except.ok ((frange min_v max_v step).map (fun v => castV v value_type))

/-- Per-strategy `parameter_space` configuration block (`space_cfg` in
`build_param_plan`); `parameters` keeps dict declaration order. -/
structure SpaceCfg where
  search_mode : Option String
  max_combinations : Option ℤ
  shuffle : Option Bool
  seed : Option ℤ
  parameters : List (String × ParamSpec)
deriving DecidableEq, Repr

/-- Entry of the `space` summary dict (param_optimization.py lines 92-100). -/
structure SpecSummary where
  enabled : Bool
  type_ : String
  count : ℕ
  min : Option ℚ
  max : Option ℚ
  step : Option ℚ
  value : Option ℚ
deriving DecidableEq, Repr

/-- Result dict of `build_param_plan`; keys absent on the fallback branches
are `Option`-valued. -/
structure ParamPlan where
  source : String
  reason : String
  search_mode : Option String
  space : List (String × SpecSummary)
  total_candidates : ℕ
  raw_total_candidates : Option ℕ
  truncated : Option Bool
  candidates : List (List (String × PV))
deriving DecidableEq, Repr

/-- Embedding of `itertools.product` over the per-parameter value lists: Cartesian product
with the rightmost list varying fastest. -/
def listProd : List (List PV) → List (List PV)
  | [] => [[]]
  | vs :: rest => vs.flatMap (fun v => (listProd rest).map (fun c => v :: c))

/-- The candidate-truncation loop (param_optimization.py lines 104-108):
append combos, breaking once `len(candidates) >= max_combinations`; with a
non-positive bound the loop still appends one combo before breaking. -/
def truncCombos (max_combinations : ℤ) (combos : List (List PV)) :
    List (List PV) :=
  combos.take (Int.toNat (max max_combinations 1))

/-- Embedding of `build_param_plan(strategy_id, risk_cfg)` (param_optimization.py lines
56-127), from the point where `space_cfg` has been looked up in
`risk_cfg["optimization"]["parameter_space"][strategy_id]` (`none` models a
missing/empty entry).  `shuffleFn` stands for the in-place
`random.Random(seed).shuffle`; it is only applied when `shuffle` is set.
Errors from `_values_from_spec` propagate. -/
def buildParamPlan (shuffleFn : ℤ → List (List (String × PV)) → List (List (String × PV)))
    (space_cfg : Option SpaceCfg) : Except String ParamPlan :=
  match space_cfg with
  | none =>
    Except.ok
      { source := "strategy_sample"
        reason := "no parameter_space config for strategy"
        search_mode := none
        space := []
        total_candidates := 0
        raw_total_candidates := none
        truncated := none
        candidates := [] }
  | some cfg =>
    if cfg.parameters = [] then
      Except.ok
        { source := "strategy_sample"
          reason := "empty parameter_space.parameters"
          search_mode := none
          space := []
          total_candidates := 0
          raw_total_candidates := none
          truncated := none
          candidates := [] }
    else
      let search_mode := cfg.search_mode.getD "grid"
      let max_combinations := cfg.max_combinations.getD 5000
      let shuffle := cfg.shuffle.getD false
      let seed := cfg.seed.getD 42
      match (cfg.parameters.mapM (fun p => do
          let vals ← valuesFromSpec p.1 p.2
          pure (p.1, p.2, vals))) with
      | Except.error e => Except.error e
      | Except.ok entries =>
        let names := entries.map (fun e => e.1)
        let values_by_param := entries.map (fun e => e.2.2)
        let summary := entries.map (fun e =>
          (e.1,
           { enabled := e.2.1.enabled.getD true
             type_ := e.2.1.type_.getD "float"
             count := e.2.2.length
             min := e.2.1.min
             max := e.2.1.max
             step := e.2.1.step
             value := e.2.1.value : SpecSummary }))
        let raw_total := (values_by_param.map List.length).prod
        let combos := truncCombos max_combinations (listProd values_by_param)
        let cands := combos.map (fun c => names.zip c)
        let cands := if shuffle then shuffleFn seed cands else cands
        Except.ok
          { source := "parameter_space"
            reason := "configured"
            search_mode := some search_mode
            space := summary
            total_candidates := cands.length
            raw_total_candidates := some raw_total
            truncated := some (decide (cands.length < raw_total))
            candidates := cands }

/-! ## Strategy contract (`src/bots/base.py`, `src/bots/ema_cross_atr.py`) -/

/-- Embedding of `dict.get(key, default)` on a parameter mapping. -/
def getP (params : List (String × ℚ)) (key : String) (dflt : ℚ) : ℚ :=
  ((params.find? (fun p => p.1 = key)).map (fun p => p.2)).getD dflt

/-- Embedding of `BaseBotStrategy.default_trade_cost` (base.py lines 52-54): the constant
per-side fractional cost `0.0002`. -/
def base_default_trade_cost (_market _timeframe : Option String) : ℚ := 2 / 10000

/-- The normalized parameter dict produced by
`EmaCrossAtrBot.normalize_params`; the untouched pass-through keys of
`dict(params)` are omitted. -/
structure NormalizedEmaParams where
  ema_fast : ℤ
  ema_slow : ℤ
  atr_period : ℤ
  atr_mult_stop : ℚ
  atr_mult_take : ℚ
  rsi_period : ℤ
  rsi_gate : ℤ
  atr_vol_window : ℤ
  atr_vol_ratio_max : ℚ
deriving DecidableEq, Repr

/-- Embedding of `EmaCrossAtrBot.normalize_params(params, bars_count)` (ema_cross_atr.py
lines 40-60). -/
def normalize_params (params : List (String × ℚ)) (bars_count : ℕ) :
    NormalizedEmaParams :=
  let max_slow := max 6 (min (ratTrunc (getP params "ema_slow" 50))
    (max 6 ((bars_count / 2 : ℕ) : ℤ)))
  let ema_slow := max 5 max_slow
  let ema_fast := max 3 (min (ratTrunc (getP params "ema_fast" 20)) (ema_slow - 1))
  let max_period := max 5 ((bars_count / 3 : ℕ) : ℤ)
  let atr_period := max 5 (min (ratTrunc (getP params "atr_period" 14)) max_period)
  let rsi_period := max 2 (min (ratTrunc (getP params "rsi_period" 14)) max_period)
  let atr_vol_window :=
    max 5 (min (ratTrunc (getP params "atr_vol_window" 50)) max_period)
  { ema_fast := ema_fast
    ema_slow := ema_slow
    atr_period := atr_period
    atr_mult_stop := max (1 / 2) (getP params "atr_mult_stop" (3 / 2))
    atr_mult_take := max (1 / 2) (getP params "atr_mult_take" 2)
    rsi_period := rsi_period
    rsi_gate := max 40 (min (ratTrunc (getP params "rsi_gate" 50)) 60)
    atr_vol_window := atr_vol_window
    atr_vol_ratio_max := max 1 (getP params "atr_vol_ratio_max" (9 / 5)) }

/-! ## Metrics engine (`src/cbot_farm/backtest.py`) -/

/-- Embedding of `Metrics` dataclass (`src/cbot_farm/types.py`). -/
structure Metrics where
  total_return_pct : ℚ
  sharpe : ℚ
  max_drawdown_pct : ℚ
  oos_degradation_pct : ℚ
deriving DecidableEq, Repr

/-- The sentinel worst-case metrics returned on both failure branches of
`run_real_backtest` (backtest.py lines 199-204 and 212-217). -/
def sentinelMetrics : Metrics :=
  { total_return_pct := -100
    sharpe := 0
    max_drawdown_pct := 100
    oos_degradation_pct := 100 }

/-- Embedding of `_bars_per_year(timeframe)` (backtest.py lines 116-126). -/
def bars_per_year (timeframe : String) : ℕ :=
  if timeframe.toLower = "1m" then 525600
  else if timeframe.toLower = "5m" then 105120
  else if timeframe.toLower = "15m" then 35040
  else if timeframe.toLower = "30m" then 17520
  else if timeframe.toLower = "1h" then 8760
  else if timeframe.toLower = "4h" then 2190
  else if timeframe.toLower = "1d" then 365
  else 8760

/-- Loop of `_max_drawdown_pct` (backtest.py lines 132-137), carrying the
running peak and the maximal drawdown fraction. -/
def mddGo (peak max_dd : ℚ) : List ℚ → ℚ
  | [] => max_dd
  | v :: rest =>
    let peak2 := if peak < v then v else peak
    let dd := if 0 < peak2 then (peak2 - v) / peak2 else 0
    mddGo peak2 (if max_dd < dd then dd else max_dd) rest

/-- Embedding of `_max_drawdown_pct(equity_curve)` (backtest.py lines 129-138); the curve
is always non-empty (it starts at equity 1.0). -/
def max_drawdown_pct (equity_curve : List ℚ) : ℚ :=
  mddGo (equity_curve.getD 0 0) 0 equity_curve * 100

/-- Embedding of `_oos_degradation_pct(returns)` (backtest.py lines 141-156).  The 80%
split index `int(n * 0.8)` is the exact `⌊4n/5⌋`. -/
def oos_degradation_pct (returns : List ℚ) : ℚ :=
  let n := returns.length
  if n < 20 then 100
  else
    let split := 4 * n / 5
    let is_returns := returns.take split
    let oos_returns := returns.drop split
    let is_total := (is_returns.map (fun r => 1 + r)).prod - 1
    let oos_total := (oos_returns.map (fun r => 1 + r)).prod - 1
    if is_total ≤ 0 then 100
    else max 0 (roundTo 2 ((is_total - oos_total) / |is_total| * 100))

/-! ## Backtest simulator (`src/cbot_farm/backtest.py`, `run_real_backtest`) -/

/-- One OHLC bar as loaded by `_load_ohlc_bars`. -/
structure Bar where
  timestamp : ℚ
  open_ : ℚ
  high : ℚ
  low : ℚ
  close : ℚ
deriving DecidableEq, Repr

/-- The `open_trade` dict built on entry (backtest.py lines 361-368). -/
structure OpenTrade where
  entry_timestamp : ℤ
  side : String
  entry_price : ℚ
  stop_price : ℚ
  take_price : ℚ
  atr_at_entry : ℚ
deriving DecidableEq, Repr

/-- A closed trade record as produced by `_close_trade`. -/
structure Trade where
  entry_timestamp : ℤ
  side : String
  entry_price : ℚ
  stop_price : ℚ
  take_price : ℚ
  atr_at_entry : ℚ
  exit_timestamp : ℤ
  exit_price : ℚ
  exit_reason : String
  gross_pnl_pct : ℚ
  net_pnl_pct : ℚ
deriving DecidableEq, Repr

/-- Embedding of `_close_trade(open_trade, exit_timestamp, exit_price, side, reason,
per_trade_cost)` (backtest.py lines 159-180). -/
def close_trade (open_trade : OpenTrade) (exit_timestamp exit_price : ℚ)
    (side : ℤ) (reason : String) (per_trade_cost : ℚ) : Trade :=
  let gross_pct := (side : ℚ) * (exit_price / open_trade.entry_price - 1) * 100
  let net_pct := gross_pct - 2 * per_trade_cost * 100
  { entry_timestamp := open_trade.entry_timestamp
    side := open_trade.side
    entry_price := open_trade.entry_price
    stop_price := open_trade.stop_price
    take_price := open_trade.take_price
    atr_at_entry := open_trade.atr_at_entry
    exit_timestamp := ratTrunc exit_timestamp
    exit_price := roundTo 6 exit_price
    exit_reason := reason
    gross_pnl_pct := roundTo 4 gross_pct
    net_pnl_pct := roundTo 4 net_pct }

/-- The simulator's mutable loop state (backtest.py lines 243-252). -/
structure SimState where
  position : ℤ
  entry_price : Option ℚ
  stop_price : Option ℚ
  take_price : Option ℚ
  open_trade : Option OpenTrade
  trade_log : List Trade
  equity : ℚ
  equity_curve : List ℚ
  returns : List ℚ
deriving DecidableEq, Repr

/-- Initial state: FLAT, equity 1.0 (backtest.py lines 243-252). -/
def initState : SimState :=
  { position := 0
    entry_price := none
    stop_price := none
    take_price := none
    open_trade := none
    trade_log := []
    equity := 1
    equity_curve := [1]
    returns := [] }

/-- The per-iteration bar data read at the top of the loop (backtest.py lines
255-261): prices of bar `i`, previous close, and the EMA values at `i-1` and
`i` plus the ATR at `i`. -/
structure BarCtx where
  prev_close : ℚ
  close : ℚ
  high : ℚ
  low : ℚ
  ts : ℚ
  prev_fast : Option ℚ
  prev_slow : Option ℚ
  curr_fast : Option ℚ
  curr_slow : Option ℚ
  atr_i : Option ℚ
deriving DecidableEq, Repr

/-- Embedding of `bull_cross` (backtest.py lines 263-270): all four EMA values defined,
`prev_fast <= prev_slow` and `curr_fast > curr_slow`. -/
def bullCross (b : BarCtx) : Bool :=
  match b.prev_fast, b.prev_slow, b.curr_fast, b.curr_slow with
  | some pf, some ps, some cf, some cs => decide (pf ≤ ps ∧ cs < cf)
  | _, _, _, _ => false

/-- Embedding of `bear_cross` (backtest.py lines 271-278). -/
def bearCross (b : BarCtx) : Bool :=
  match b.prev_fast, b.prev_slow, b.curr_fast, b.curr_slow with
  | some pf, some ps, some cf, some cs => decide (ps ≤ pf ∧ cf < cs)
  | _, _, _, _ => false

/-- Intrabar exit test (backtest.py lines 286-303): for a long, stop-loss
fires when `low <= stop_price`, else take-profit when `high >= take_price`;
symmetric for a short.  Stop-loss is tested first on both sides. -/
def exitCheck (position : ℤ) (stop_price take_price : Option ℚ)
    (high low : ℚ) : Option (ℚ × String) :=
  if position = 1 then
    match stop_price, take_price with
    | some sp, some tp =>
      if low ≤ sp then some (sp, "stop_loss")
      else if tp ≤ high then some (tp, "take_profit")
      else none
    | _, _ => none
  else if position = -1 then
    match stop_price, take_price with
    | some sp, some tp =>
      if sp ≤ high then some (sp, "stop_loss")
      else if low ≤ tp then some (tp, "take_profit")
      else none
    | _, _ => none
  else none

/-- The in-position block of the loop (backtest.py lines 282-345), returning
the updated state and the bar return accumulated so far.  On a stop/take exit
the bar return is the directional return against the exit price minus one
cost unit; otherwise it is the close-to-close return, minus one further cost
unit if a signal flip forces the close. -/
def exitPhase (per_trade_cost : ℚ) (b : BarCtx) (s : SimState) :
    SimState × ℚ :=
  if s.position = 0 then (s, 0)
  else
    match exitCheck s.position s.stop_price s.take_price b.high b.low with
    | some pr =>
      let bar_ret := (s.position : ℚ) * (pr.1 / b.prev_close - 1) - per_trade_cost
      let log :=
        match s.open_trade, s.entry_price with
        | some ot, some _ =>
          s.trade_log ++ [close_trade ot b.ts pr.1 s.position pr.2 per_trade_cost]
        | _, _ => s.trade_log
      ({ s with
          position := 0
          entry_price := none
          stop_price := none
          take_price := none
          open_trade := none
          trade_log := log }, bar_ret)
    | none =>
      let bar_ret := (s.position : ℚ) * (b.close / b.prev_close - 1)
      let signal_flip :=
        (s.position = 1 ∧ bearCross b) ∨ (s.position = -1 ∧ bullCross b)
      if signal_flip then
        let bar_ret := bar_ret - per_trade_cost
        let log :=
          match s.open_trade, s.entry_price with
          | some ot, some _ =>
            s.trade_log ++
              [close_trade ot b.ts b.close s.position "signal_flip" per_trade_cost]
          | _, _ => s.trade_log
        ({ s with
            position := 0
            entry_price := none
            stop_price := none
            take_price := none
            open_trade := none
            trade_log := log }, bar_ret)
      else (s, bar_ret)

/-- The entry block of the loop (backtest.py lines 347-370): runs whenever the
state is FLAT after the exit block — also on the very bar of a forced close —
opening at the bar's close and subtracting one further cost unit. -/
def entryPhase (per_trade_cost atr_mult_stop atr_mult_take : ℚ) (b : BarCtx)
    (sr : SimState × ℚ) : SimState × ℚ :=
  let s := sr.1
  if s.position = 0 ∧ (bullCross b ∨ bearCross b) then
    let side : ℤ := if bullCross b then 1 else -1
    let entry_price := b.close
    let atr_value := b.atr_i.getD (max (b.close * (5 / 1000)) (1 / 100000000))
    let stop_distance := atr_value * atr_mult_stop
    let take_distance := atr_value * atr_mult_take
    let stop_price :=
      if side = 1 then entry_price - stop_distance else entry_price + stop_distance
    let take_price :=
      if side = 1 then entry_price + take_distance else entry_price - take_distance
    let ot : OpenTrade :=
      { entry_timestamp := ratTrunc b.ts
        side := if side = 1 then "long" else "short"
        entry_price := roundTo 6 entry_price
        stop_price := roundTo 6 stop_price
        take_price := roundTo 6 take_price
        atr_at_entry := roundTo 6 atr_value }
    ({ s with
        position := side
        entry_price := some entry_price
        stop_price := some stop_price
        take_price := some take_price
        open_trade := some ot }, sr.2 - per_trade_cost)
  else sr

/-- The directional gross return realized by a forced close on this bar:
against the stop/take exit price when one fires, else against the close
(signal flip).  Used to state the double-cost property of same-bar
re-entry. -/
def grossOf (b : BarCtx) (s : SimState) : ℚ :=
  match exitCheck s.position s.stop_price s.take_price b.high b.low with
  | some pr => (s.position : ℚ) * (pr.1 / b.prev_close - 1)
  | none => (s.position : ℚ) * (b.close / b.prev_close - 1)

/-- One full loop iteration (backtest.py lines 254-374): exit block, entry
block, then the multiplicative equity update and the per-bar bookkeeping. -/
def stepBar (per_trade_cost atr_mult_stop atr_mult_take : ℚ) (b : BarCtx)
    (s : SimState) : SimState :=
  let sr := entryPhase per_trade_cost atr_mult_stop atr_mult_take b
    (exitPhase per_trade_cost b s)
  { sr.1 with
      equity := sr.1.equity * (1 + sr.2)
      returns := sr.1.returns ++ [sr.2]
      equity_curve := sr.1.equity_curve ++ [sr.1.equity * (1 + sr.2)] }

/-- A candidate dataset as selected by `_find_candidate_files` and loaded by
`_load_ohlc_bars`: its path string, the names of its parent and grandparent
directories (used to derive the timeframe, backtest.py line 240), and its
parsed bars. -/
structure Dataset where
  path : String
  parent_name : String
  parent_parent_name : String
  bars : List Bar
deriving DecidableEq, Repr

/-- A zeroed bar used only as the `getD` fallback; the loop never reads out of
range. -/
def dummyBar : Bar :=
  { timestamp := 0, open_ := 0, high := 0, low := 0, close := 0 }

/-- The per-iteration bar context (backtest.py lines 255-278, 350) at index
`i`, reading bar `i`, the previous close, EMA values at `i-1`/`i`, and the ATR
at `i`. -/
def mkBarCtx (bars : List Bar) (fast slow atr : List (Option ℚ)) (i : ℕ) :
    BarCtx :=
  { prev_close := (bars.getD (i - 1) dummyBar).close
    close := (bars.getD i dummyBar).close
    high := (bars.getD i dummyBar).high
    low := (bars.getD i dummyBar).low
    ts := (bars.getD i dummyBar).timestamp
    prev_fast := fast.getD (i - 1) none
    prev_slow := slow.getD (i - 1) none
    curr_fast := fast.getD i none
    curr_slow := slow.getD i none
    atr_i := atr.getD i none }

/-- The `details` dict returned by `run_real_backtest`; keys that appear only
on some branches are `Option`-valued. -/
structure RunDetails where
  status : String
  reason : Option String
  dataset : Option String
  bars : Option ℕ
  timeframe : Option String
  ema_fast : Option ℤ
  ema_slow : Option ℤ
  atr_period : Option ℕ
  atr_mult_stop : Option ℚ
  atr_mult_take : Option ℚ
  per_trade_cost : Option ℚ
  trades_count : Option ℕ
  win_rate_pct : Option ℚ
  trade_log : Option (List Trade)
deriving DecidableEq, Repr

/-- Details of the no-dataset failure branch (backtest.py lines 197-206). -/
def noDatasetDetails : RunDetails :=
  { status := "failed"
    reason := some "no csv dataset found for current filters"
    dataset := none
    bars := none
    timeframe := none
    ema_fast := none
    ema_slow := none
    atr_period := none
    atr_mult_stop := none
    atr_mult_take := none
    per_trade_cost := none
    trades_count := none
    win_rate_pct := none
    trade_log := none }

/-- Details of the insufficient-bars failure branch (backtest.py lines
210-223). -/
def insufficientBarsDetails (ds : Dataset) : RunDetails :=
  { status := "failed"
    reason := some ("insufficient bars (" ++ toString ds.bars.length ++ ")")
    dataset := some ds.path
    bars := none
    timeframe := none
    ema_fast := none
    ema_slow := none
    atr_period := none
    atr_mult_stop := none
    atr_mult_take := none
    per_trade_cost := none
    trades_count := none
    win_rate_pct := none
    trade_log := none }

/-- Embedding of `run_real_backtest(params, data_root, markets_filter, symbols_filter,
timeframes_filter)` (backtest.py lines 183-410), shallow-embedded from the
point where `_find_candidate_files` has produced the ordered candidate list
and `_load_ohlc_bars` has parsed each file's rows into bars.  `sqrtQ` models
`math.sqrt`.  Both failure modes return sentinel results; nothing raises. -/
def run_real_backtest (sqrtQ : ℚ → ℚ) (params : List (String × ℚ))
    (candidates : List Dataset) : Metrics × RunDetails :=
  match candidates with
  | [] => (sentinelMetrics, noDatasetDetails)
  | ds :: _ =>
    let bars := ds.bars
    if bars.length < 12 then (sentinelMetrics, insufficientBarsDetails ds)
    else
      let closes := bars.map Bar.close
      let highs := bars.map Bar.high
      let lows := bars.map Bar.low
      let max_slow := max 6 (min (ratTrunc (getP params "ema_slow" 50))
        ((closes.length / 2 : ℕ) : ℤ))
      let ema_slow := max 5 max_slow
      let ema_fast :=
        max 3 (min (ratTrunc (getP params "ema_fast" 20)) (ema_slow - 1))
      let atr_period : ℕ := 14
      let atr_mult_stop := getP params "atr_mult_stop" (3 / 2)
      let atr_mult_take := getP params "atr_mult_take" 2
      let fast := ema_series closes ema_fast.toNat
      let slow := ema_series closes ema_slow.toNat
      let atr := atr_series highs lows closes atr_period
      let timeframe :=
        if ds.parent_name = "download" then ds.parent_parent_name
        else ds.parent_name
      let per_trade_cost : ℚ := 2 / 10000
      let final := (List.range' 1 (bars.length - 1)).foldl
        (fun s i =>
          stepBar per_trade_cost atr_mult_stop atr_mult_take
            (mkBarCtx bars fast slow atr i) s)
        initState
      let total_return := (final.equity - 1) * 100
      let max_dd := max_drawdown_pct final.equity_curve
      let returns_std :=
        if 1 < final.returns.length then sqrtQ (pvariance final.returns) else 0
      let sharpe :=
        if 0 < returns_std then
          listMean final.returns / returns_std * sqrtQ (bars_per_year timeframe)
        else 0
      let metrics : Metrics :=
        { total_return_pct := roundTo 2 total_return
          sharpe := roundTo 2 sharpe
          max_drawdown_pct := roundTo 2 max_dd
          oos_degradation_pct := oos_degradation_pct final.returns }
      let wins := (final.trade_log.filter (fun t => decide (0 < t.net_pnl_pct))).length
      let win_rate :=
        if final.trade_log.length = 0 then 0
        else (wins : ℚ) / (final.trade_log.length : ℚ) * 100
      (metrics,
       { status := "ok"
         reason := none
         dataset := some ds.path
         bars := some closes.length
         timeframe := some timeframe
         ema_fast := some ema_fast
         ema_slow := some ema_slow
         atr_period := some atr_period
         atr_mult_stop := some atr_mult_stop
         atr_mult_take := some atr_mult_take
         per_trade_cost := some per_trade_cost
         trades_count := some final.trade_log.length
         win_rate_pct := some (roundTo 2 win_rate)
         trade_log := some final.trade_log })

/-! ## Cost profile resolution (`src/scripts/backtrader_parity.py`) -/

/-- One fee/slippage block of the `execution` config (risk config, consumed by
`resolve_cost_profile`). -/
structure ExecCostCfg where
  fee_bps_per_side : Option ℚ
  slippage_bps_per_side : Option ℚ
deriving DecidableEq, Repr

/-- The nested `execution` config: a default block and per-market
overrides. -/
structure ExecutionCfg where
  dflt : Option ExecCostCfg
  market_costs : List (String × ExecCostCfg)
deriving DecidableEq, Repr

/-- Output dict of `resolve_cost_profile` (backtrader_parity.py lines
65-71). -/
structure CostProfile where
  fee_bps_per_side : ℚ
  slippage_bps_per_side : ℚ
  fee_fraction : ℚ
  slippage_fraction : ℚ
  per_side_cost_fraction : ℚ
deriving DecidableEq, Repr

/-- Embedding of `resolve_cost_profile(risk_cfg, market)` (backtrader_parity.py lines
55-71): per-market override falling back to the default block, then
`fee_bps/10000 + slippage_bps/10000` as the per-side cost fraction. -/
def resolve_cost_profile (execution : ExecutionCfg) (market : String) :
    CostProfile :=
  let default_cfg := execution.dflt
  let market_cfg :=
    ((execution.market_costs.find? (fun p => p.1 = market.toLower)).map
      (fun p => p.2))
  let fee_bps := ((market_cfg.bind ExecCostCfg.fee_bps_per_side).getD
    ((default_cfg.bind ExecCostCfg.fee_bps_per_side).getD 0))
  let slippage_bps := ((market_cfg.bind ExecCostCfg.slippage_bps_per_side).getD
    ((default_cfg.bind ExecCostCfg.slippage_bps_per_side).getD 0))
  { fee_bps_per_side := fee_bps
    slippage_bps_per_side := slippage_bps
    fee_fraction := fee_bps / 10000
    slippage_fraction := slippage_bps / 10000
    per_side_cost_fraction := fee_bps / 10000 + slippage_bps / 10000 }

/-! ## Concrete fixtures used by witnesses and counterexamples -/

/-- The integer grid spec `{min: 5, max: 7, step: 1, type: int}`. -/
def specInt657 : ParamSpec :=
  { enabled := none, type_ := some "int", min := some 5, max := some 7,
    step := some 1, value := none }

/-- A parameter space of two independent 3-valued integer parameters with
`max_combinations = 2` and no shuffle. -/
def cfg657x2 : SpaceCfg :=
  { search_mode := none, max_combinations := some 2, shuffle := none,
    seed := none, parameters := [("p", specInt657), ("q", specInt657)] }

/-- Twelve flat bars (all prices 1), enough to pass the 12-bar guard. -/
def flatBars : List Bar :=
  (List.range 12).map (fun i =>
    { timestamp := i, open_ := 1, high := 1, low := 1, close := 1 })

/-- A candidate dataset holding the flat bars. -/
def flatDs : Dataset :=
  { path := "data/forex/eurusd/1h/download/flat.csv"
    parent_name := "download"
    parent_parent_name := "1h"
    bars := flatBars }

/-- A candidate dataset with only 3 bars, short of the 12-bar guard. -/
def shortDs : Dataset :=
  { path := "data/forex/eurusd/1h/download/tiny.csv"
    parent_name := "download"
    parent_parent_name := "1h"
    bars := flatBars.take 3 }

/-- An execution config with default fee 3 bps and slippage 2 bps per side and
no per-market overrides. -/
def execCfg32 : ExecutionCfg :=
  { dflt := some { fee_bps_per_side := some 3, slippage_bps_per_side := some 2 }
    market_costs := [] }

/-- A trivial stand-in for the seeded shuffle; irrelevant when `shuffle` is
unset, as in `cfg657x2`. -/
def idShuffle : ℤ → List (List (String × PV)) → List (List (String × PV)) :=
  fun _ c => c

/-- A long position opened at 10 with stop 9 and take 11. -/
def longState : SimState :=
  { position := 1
    entry_price := some 10
    stop_price := some 9
    take_price := some 11
    open_trade := some
      { entry_timestamp := 0, side := "long", entry_price := 10,
        stop_price := 9, take_price := 11, atr_at_entry := 1 }
    trade_log := []
    equity := 1
    equity_curve := [1]
    returns := [] }

/-- A bar whose range 8..12 reaches both the stop 9 and the take 11 of
`longState`. -/
def bothHitBar : BarCtx :=
  { prev_close := 10, close := 10, high := 12, low := 8, ts := 5
    prev_fast := none, prev_slow := none, curr_fast := none, curr_slow := none
    atr_i := none }

/-- A long position opened at 10 with stop 9 and a far take 20. -/
def longStateFarTake : SimState :=
  { position := 1
    entry_price := some 10
    stop_price := some 9
    take_price := some 20
    open_trade := some
      { entry_timestamp := 0, side := "long", entry_price := 10,
        stop_price := 9, take_price := 20, atr_at_entry := 1 }
    trade_log := []
    equity := 1
    equity_curve := [1]
    returns := [] }

/-- A bar that hits the stop 9 of `longStateFarTake` and simultaneously shows
a bearish EMA cross, triggering a same-bar short re-entry. -/
def stopAndBearBar : BarCtx :=
  { prev_close := 10, close := 19/2, high := 10, low := 8, ts := 7
    prev_fast := some 2, prev_slow := some 1, curr_fast := some 0,
    curr_slow := some 1, atr_i := some 1 }

/-! ## Claim theorems

The rational arithmetic of the embedding is evaluated inside proofs, so the
Batteries-irreducible `Rat` operations are made semireducible for this
section. -/

section

attribute [local semireducible] Rat.add Rat.mul Rat.inv Rat.sub

/-- C6: the grid planner turns the enabled integer spec
`{min: 5, max: 7, step: 1}` into exactly `[5, 6, 7]`; for two independent
3-valued parameters it reports `raw_total_candidates = 9`; and with
`max_combinations = 2` it reports `total_candidates = 2` and
`truncated = true`, the candidates being the first two entries of the
declaration-order Cartesian product. -/
theorem param_plan_grid_truncation :
    valuesFromSpec "p" specInt657 =
      Except.ok [PV.pint 5, PV.pint 6, PV.pint 7] ∧
    buildParamPlan idShuffle (some cfg657x2) =
      Except.ok
        { source := "parameter_space"
          reason := "configured"
          search_mode := some "grid"
          space :=
            [("p",
              { enabled := true, type_ := "int", count := 3, min := some 5,
                max := some 7, step := some 1, value := none }),
             ("q",
              { enabled := true, type_ := "int", count := 3, min := some 5,
                max := some 7, step := some 1, value := none })]
          total_candidates := 2
          raw_total_candidates := some 9
          truncated := some true
          candidates :=
            [[("p", PV.pint 5), ("q", PV.pint 5)],
             [("p", PV.pint 5), ("q", PV.pint 6)]] } := by
  constructor
  · decide
  · decide

/-- C7: every configuration error — an enabled spec missing `min`, `max` or
`step`, an enabled spec with non-positive step or `min > max`, or a disabled
spec without a fixed `value` — makes `_values_from_spec` raise (an
`Except.error`) instead of returning a value list. -/
theorem values_from_spec_config_errors (name : String) (spec : ParamSpec)
    (h : (spec.enabled.getD true = true ∧
            (spec.min = none ∨ spec.max = none ∨ spec.step = none ∨
             (∃ st, spec.step = some st ∧ st ≤ 0) ∨
             (∃ mn mx, spec.min = some mn ∧ spec.max = some mx ∧ mx < mn))) ∨
         (spec.enabled.getD true = false ∧ spec.value = none)) :
    ∃ msg, valuesFromSpec name spec = Except.error msg := by
  unfold valuesFromSpec
  rcases h with ⟨hen, hc⟩ | ⟨hen, hv⟩
  · rw [hen]
    simp only [if_neg (by decide : ¬ (true = false))]
    rcases hmin : spec.min with _ | mn
    · exact ⟨_, rfl⟩
    · rcases hmax : spec.max with _ | mx
      · exact ⟨_, rfl⟩
      · rcases hstep : spec.step with _ | st
        · exact ⟨_, rfl⟩
        · rcases hc with h1 | h2 | h3 | ⟨st2, hst2, hle⟩ | ⟨mn2, mx2, hmn2, hmx2, hlt⟩
          · exact absurd hmin (by rw [h1]; exact fun h => Option.noConfusion h)
          · exact absurd hmax (by rw [h2]; exact fun h => Option.noConfusion h)
          · exact absurd hstep (by rw [h3]; exact fun h => Option.noConfusion h)
          · rw [hstep] at hst2
            obtain rfl : st = st2 := Option.some_injective _ hst2
            exact ⟨"Parameter \x27" ++ name ++ "\x27 has non-positive step",
              by simp [hle]⟩
          · rw [hmin] at hmn2
            rw [hmax] at hmx2
            obtain rfl : mn = mn2 := Option.some_injective _ hmn2
            obtain rfl : mx = mx2 := Option.some_injective _ hmx2
            by_cases hle : st ≤ 0
            · exact ⟨"Parameter \x27" ++ name ++ "\x27 has non-positive step",
                by simp [hle]⟩
            · exact ⟨"Parameter \x27" ++ name ++ "\x27 has min > max",
                by simp [hle, hlt]⟩
  · rw [hen]
    simp only [if_pos rfl, hv]
    exact ⟨_, rfl⟩

/-- C7 witness: an enabled spec missing `min` is rejected. -/
theorem values_from_spec_config_errors_witness :
    ∃ msg,
      valuesFromSpec "x"
        { enabled := some true, type_ := none, min := none, max := some 7,
          step := some 1, value := none } = Except.error msg :=
  values_from_spec_config_errors "x"
    { enabled := some true, type_ := none, min := none, max := some 7,
      step := some 1, value := none }
    (Or.inl ⟨rfl, Or.inl rfl⟩)

/-- C9: with fewer than 20 observations `_oos_degradation_pct` returns the
sentinel 100 regardless of content; with at least 20 it splits at
`int(n*0.8)`, returns the sentinel 100 when the compounded in-sample return
is non-positive, and otherwise returns
`(is_total - oos_total)/|is_total| * 100` (rounded to 2 decimals) floored at
0. -/
theorem oos_degradation_cases (returns : List ℚ) :
    (returns.length < 20 → oos_degradation_pct returns = 100) ∧
    (20 ≤ returns.length →
      ((((returns.take (4 * returns.length / 5)).map (fun r => 1 + r)).prod - 1 ≤ 0 →
          oos_degradation_pct returns = 100) ∧
        (0 < ((returns.take (4 * returns.length / 5)).map (fun r => 1 + r)).prod - 1 →
          oos_degradation_pct returns =
            max 0 (roundTo 2
              (((((returns.take (4 * returns.length / 5)).map (fun r => 1 + r)).prod - 1) -
                  (((returns.drop (4 * returns.length / 5)).map (fun r => 1 + r)).prod - 1)) /
                |((returns.take (4 * returns.length / 5)).map (fun r => 1 + r)).prod - 1| *
                100))))) := by
  refine ⟨fun h => ?_, fun h20 => ⟨fun hle => ?_, fun hpos => ?_⟩⟩
  · simp only [oos_degradation_pct]
    rw [if_pos h]
  · simp only [oos_degradation_pct]
    rw [if_neg (by omega), if_pos hle]
  · simp only [oos_degradation_pct]
    rw [if_neg (by omega), if_neg (not_le.mpr hpos)]

/-- C9 witness: a 3-element series hits the insufficient-data sentinel, and a
20-element series with in-sample compounded return 1 and out-of-sample 0
produces a degradation of 100 through the general formula. -/
theorem oos_degradation_cases_witness :
    oos_degradation_pct (List.replicate 3 (5 : ℚ)) = 100 ∧
    oos_degradation_pct ((1 : ℚ) :: List.replicate 19 0) = 100 := by
  refine ⟨(oos_degradation_cases _).1 (by decide), ?_⟩
  have h :=
    (((oos_degradation_cases ((1 : ℚ) :: List.replicate 19 0)).2 (by decide)).2 (by decide))
  rw [h]
  decide

/-- C8 counterexample: for `bars_count = 5` the normalized `ema_slow` is 6,
which does not fit within the bar count, so the unrestricted claim is
false. -/
theorem normalize_params_counterexample :
    (normalize_params [] 5).ema_slow = 6 ∧
    ¬((normalize_params [] 5).ema_slow ≤ (5 : ℤ)) := by
  decide

/-- C8 (amended): for every parameter mapping and every bar count of at least
12 (the simulator's own minimum), `normalize_params` yields periods that all
fit within the bar count, and the ordering `ema_fast < ema_slow` holds. -/
theorem normalize_params_fits (params : List (String × ℚ)) (n : ℕ)
    (h : 12 ≤ n) :
    (normalize_params params n).ema_fast < (normalize_params params n).ema_slow ∧
    (normalize_params params n).ema_fast ≤ (n : ℤ) ∧
    (normalize_params params n).ema_slow ≤ (n : ℤ) ∧
    (normalize_params params n).atr_period ≤ (n : ℤ) ∧
    (normalize_params params n).rsi_period ≤ (n : ℤ) ∧
    (normalize_params params n).atr_vol_window ≤ (n : ℤ) := by
  unfold normalize_params
  dsimp only
  omega

/-- C8 witness: the amended claim at `bars_count = 100` with an empty
parameter mapping. -/
theorem normalize_params_fits_witness :
    (normalize_params [] 100).ema_fast < (normalize_params [] 100).ema_slow ∧
    (normalize_params [] 100).ema_fast ≤ (100 : ℤ) ∧
    (normalize_params [] 100).ema_slow ≤ (100 : ℤ) ∧
    (normalize_params [] 100).atr_period ≤ (100 : ℤ) ∧
    (normalize_params [] 100).rsi_period ≤ (100 : ℤ) ∧
    (normalize_params [] 100).atr_vol_window ≤ (100 : ℤ) :=
  normalize_params_fits [] 100 (by decide)

/-- C4: the simulator never raises on dataset failures — with no candidate
dataset it returns the sentinel metrics
`{-100, 0, 100, 100}` with status `failed` and the no-dataset reason, and
with a dataset of fewer than 12 bars it returns the same sentinel metrics
with the insufficient-bars reason. -/
theorem run_real_backtest_failure_sentinels (sqrtQ : ℚ → ℚ)
    (params : List (String × ℚ)) :
    run_real_backtest sqrtQ params [] = (sentinelMetrics, noDatasetDetails) ∧
    sentinelMetrics.total_return_pct = -100 ∧
    sentinelMetrics.sharpe = 0 ∧
    sentinelMetrics.max_drawdown_pct = 100 ∧
    sentinelMetrics.oos_degradation_pct = 100 ∧
    noDatasetDetails.status = "failed" ∧
    noDatasetDetails.reason = some "no csv dataset found for current filters" ∧
    (∀ (ds : Dataset) (rest : List Dataset), ds.bars.length < 12 →
      run_real_backtest sqrtQ params (ds :: rest) =
        (sentinelMetrics, insufficientBarsDetails ds) ∧
      (insufficientBarsDetails ds).status = "failed" ∧
      (insufficientBarsDetails ds).reason =
        some ("insufficient bars (" ++ toString ds.bars.length ++ ")")) := by
  refine ⟨rfl, rfl, rfl, rfl, rfl, rfl, rfl, fun ds rest h => ⟨?_, rfl, rfl⟩⟩
  simp only [run_real_backtest]
  rw [if_pos h]

/-- C4 witness: the insufficient-bars branch at a concrete 3-bar dataset. -/
theorem run_real_backtest_failure_sentinels_witness :
    run_real_backtest (fun _ => 0) [] [shortDs] =
      (sentinelMetrics, insufficientBarsDetails shortDs) :=
  ((run_real_backtest_failure_sentinels (fun _ => 0) []).2.2.2.2.2.2.2 shortDs []
    (by decide)).1

/-- C1 (divergence evidence): the simulator's per-trade cost is the hardcoded
constant `0.0002` (backtest.py line 241) — it is recorded as such even though
an execution config with fee 3 bps and slippage 2 bps per side resolves (per
`resolve_cost_profile`) to a per-side cost of `0.0005`; the constant merely
coincides with `BaseBotStrategy.default_trade_cost`'s unconditional
`0.0002`. -/
theorem per_trade_cost_hardcoded :
    (run_real_backtest (fun _ => 0) [] [flatDs]).2.per_trade_cost =
      some (2 / 10000) ∧
    (run_real_backtest (fun _ => 0) [] [flatDs]).2.status = "ok" ∧
    (resolve_cost_profile execCfg32 "forex").per_side_cost_fraction = 5 / 10000 ∧
    base_default_trade_cost (some "forex") (some "1h") = 2 / 10000 ∧
    ((5 : ℚ) / 10000) ≠ 2 / 10000 := by
  refine ⟨by decide, by decide, by decide, by decide, by decide⟩

/-- C3: on any bar where the held position's stop and take prices are both
intrabar-reachable (long: `low <= stop` and `high >= take`; short
symmetrically), the exit fires at the stop price with reason `stop_loss`,
never at the take price: the bar return is realized against the stop price
and the emitted trade carries reason `stop_loss` and the stop as exit
price. -/
theorem stop_beats_take (cost : ℚ) (b : BarCtx) (s : SimState) (sp tp : ℚ)
    (hsp : s.stop_price = some sp) (htp : s.take_price = some tp)
    (hcase : (s.position = 1 ∧ b.low ≤ sp ∧ tp ≤ b.high) ∨
      (s.position = -1 ∧ sp ≤ b.high ∧ b.low ≤ tp)) :
    exitCheck s.position s.stop_price s.take_price b.high b.low =
      some (sp, "stop_loss") ∧
    (exitPhase cost b s).1.position = 0 ∧
    (exitPhase cost b s).2 = (s.position : ℚ) * (sp / b.prev_close - 1) - cost ∧
    (∀ ot, s.open_trade = some ot → s.entry_price ≠ none →
      (exitPhase cost b s).1.trade_log =
        s.trade_log ++ [close_trade ot b.ts sp s.position "stop_loss" cost]) := by
  have hck : exitCheck s.position s.stop_price s.take_price b.high b.low =
      some (sp, "stop_loss") := by
    rcases hcase with ⟨hp, h1, _⟩ | ⟨hp, h1, _⟩
    · rw [hp, hsp, htp]
      simp [exitCheck, h1]
    · rw [hp, hsp, htp]
      simp [exitCheck, h1]
  have hp0 : ¬ s.position = 0 := by
    rcases hcase with ⟨hp, _, _⟩ | ⟨hp, _, _⟩ <;> rw [hp] <;> decide
  have hexit : exitPhase cost b s =
      ({ s with
          position := 0
          entry_price := none
          stop_price := none
          take_price := none
          open_trade := none
          trade_log :=
            match s.open_trade, s.entry_price with
            | some ot, some _ =>
              s.trade_log ++ [close_trade ot b.ts sp s.position "stop_loss" cost]
            | _, _ => s.trade_log },
        (s.position : ℚ) * (sp / b.prev_close - 1) - cost) := by
    unfold exitPhase
    rw [if_neg hp0, hck]
  refine ⟨hck, by rw [hexit], by rw [hexit], fun ot hot hep => ?_⟩
  obtain ⟨ep, hep2⟩ := Option.ne_none_iff_exists.mp hep
  rw [hexit]
  show (match s.open_trade, s.entry_price with
    | some ot, some _ =>
      s.trade_log ++ [close_trade ot b.ts sp s.position "stop_loss" cost]
    | _, _ => s.trade_log) = _
  rw [hot, ← hep2]

/-- C3 witness: a long holding with stop 9 and take 11 on a bar ranging 8..12
(both reachable) exits at 9 with reason `stop_loss`. -/
theorem stop_beats_take_witness :
    exitCheck longState.position longState.stop_price longState.take_price
      bothHitBar.high bothHitBar.low = some (9, "stop_loss") ∧
    (exitPhase (1 / 1000) bothHitBar longState).1.position = 0 ∧
    (exitPhase (1 / 1000) bothHitBar longState).2 =
      (longState.position : ℚ) * (9 / bothHitBar.prev_close - 1) - 1 / 1000 := by
  have h := stop_beats_take (1 / 1000) bothHitBar longState 9 11 (by decide)
    (by decide) (Or.inl (by refine ⟨by decide, by decide, by decide⟩))
  exact ⟨h.1, h.2.1, h.2.2.1⟩

/-- C2: whenever the exit block force-closes the held position on a bar that
also shows an entry cross, the entry block of the same iteration opens a new
position at the bar's close, and the bar return is the forced close's gross
directional return minus one cost unit for the exit and a second for the new
entry. -/
theorem same_bar_reentry (cost ams amt : ℚ) (b : BarCtx) (s : SimState)
    (hpos : s.position = 1 ∨ s.position = -1)
    (hclosed : (exitPhase cost b s).1.position = 0)
    (hsig : bullCross b = true ∨ bearCross b = true) :
    (stepBar cost ams amt b s).position = (if bullCross b then 1 else -1) ∧
    (stepBar cost ams amt b s).entry_price = some b.close ∧
    (stepBar cost ams amt b s).returns =
      s.returns ++ [grossOf b s - cost - cost] := by
  have hp0 : ¬ s.position = 0 := by
    rcases hpos with hp | hp <;> rw [hp] <;> decide
  have hsig2 : bullCross b = true ∨ bearCross b = true := hsig
  have hret : (exitPhase cost b s).1.returns = s.returns := by
    cases hck : exitCheck s.position s.stop_price s.take_price b.high b.low with
    | some pr =>
      unfold exitPhase
      rw [if_neg hp0, hck]
    | none =>
      by_cases hflip :
          (s.position = 1 ∧ bearCross b = true) ∨
            (s.position = -1 ∧ bullCross b = true)
      · unfold exitPhase
        rw [if_neg hp0, hck]
        rw [if_pos hflip]
      · exfalso
        apply hp0
        have h := hclosed
        rw [show exitPhase cost b s =
            (s, (s.position : ℚ) * (b.close / b.prev_close - 1)) from by
          unfold exitPhase
          rw [if_neg hp0, hck, if_neg hflip]] at h
        exact h
  have hval : (exitPhase cost b s).2 = grossOf b s - cost := by
    cases hck : exitCheck s.position s.stop_price s.take_price b.high b.low with
    | some pr =>
      unfold exitPhase grossOf
      rw [if_neg hp0, hck]
    | none =>
      by_cases hflip :
          (s.position = 1 ∧ bearCross b = true) ∨
            (s.position = -1 ∧ bullCross b = true)
      · unfold exitPhase grossOf
        rw [if_neg hp0, hck]
        rw [if_pos hflip]
      · exfalso
        apply hp0
        have h := hclosed
        rw [show exitPhase cost b s =
            (s, (s.position : ℚ) * (b.close / b.prev_close - 1)) from by
          unfold exitPhase
          rw [if_neg hp0, hck, if_neg hflip]] at h
        exact h
  unfold stepBar entryPhase
  rw [if_pos ⟨hclosed, hsig2⟩]
  refine ⟨rfl, rfl, ?_⟩
  rw [hret, hval]

/-- C2 witness: a long with stop 9 is stopped out on a bar that also shows a
bearish cross; a short is opened at the same bar's close and the bar return
carries two cost units. -/
theorem same_bar_reentry_witness :
    (stepBar (1 / 1000) 1 2 stopAndBearBar longStateFarTake).position =
      (if bullCross stopAndBearBar then 1 else -1) ∧
    (stepBar (1 / 1000) 1 2 stopAndBearBar longStateFarTake).entry_price =
      some stopAndBearBar.close ∧
    (stepBar (1 / 1000) 1 2 stopAndBearBar longStateFarTake).returns =
      longStateFarTake.returns ++
        [grossOf stopAndBearBar longStateFarTake - 1 / 1000 - 1 / 1000] :=
  same_bar_reentry (1 / 1000) 1 2 stopAndBearBar longStateFarTake
    (Or.inl (by decide)) (by decide) (Or.inr (by decide))

/-- Helper: a `getD _ none` hit of `some x` means `some x` is a member. -/
theorem getD_some_mem (l : List (Option ℚ)) :
    ∀ (i : ℕ) (x : ℚ), l.getD i none = some x → some x ∈ l := by
  induction l with
  | nil => intro i x h; simp [List.getD] at h
  | cons a t ih =>
    intro i x h
    cases i with
    | zero =>
      rw [List.getD_cons_zero] at h
      rw [h] at *
      exact List.mem_cons_self _ _
    | succ n =>
      rw [List.getD_cons_succ] at h
      exact List.mem_cons_of_mem _ (ih n x h)

/-- Helper: both components of every `gainsLosses` entry are non-negative. -/
theorem gainsLosses_nonneg (values : List ℚ) :
    ∀ p ∈ gainsLosses values, 0 ≤ p.1 ∧ 0 ≤ p.2 := by
  intro p hp
  unfold gainsLosses at hp
  obtain ⟨j, _, rfl⟩ := List.mem_map.mp hp
  exact ⟨le_max_right _ 0, le_max_right _ 0⟩

/-- Helper: the RSI formula maps non-negative average gain/loss into
`[0, 100)`, including the `avg_loss = 0` convention `RS = 100`. -/
theorem rsiFrom_bounds (ag al : ℚ) (hag : 0 ≤ ag) (hal : 0 ≤ al) :
    0 ≤ rsiFrom ag al ∧ rsiFrom ag al < 100 := by
  unfold rsiFrom
  by_cases h : al = 0
  · rw [if_neg (not_not_intro h)]
    norm_num
  · rw [if_pos h]
    have hal2 : 0 < al := lt_of_le_of_ne hal (Ne.symm h)
    have hrs : 0 ≤ ag / al := div_nonneg hag (le_of_lt hal2)
    have hd : (0 : ℚ) < 1 + ag / al := by linarith
    have h1 : 100 / (1 + ag / al) ≤ 100 / 1 :=
      div_le_div_of_nonneg_left (by norm_num) (by norm_num) (by linarith)
    have h2 : 0 < 100 / (1 + ag / al) := div_pos (by norm_num) hd
    constructor <;> [linarith; linarith]

/-- Helper: every value emitted by the Wilder RSI smoothing loop lies in
`[0, 100)` when the seeds and all gain/loss pairs are non-negative. -/
theorem rsiSteps_bounds (period : ℕ) (hp : 1 ≤ period) :
    ∀ (pairs : List (ℚ × ℚ)) (ag al : ℚ), 0 ≤ ag → 0 ≤ al →
      (∀ p ∈ pairs, 0 ≤ p.1 ∧ 0 ≤ p.2) →
      ∀ x ∈ rsiSteps period ag al pairs, 0 ≤ x ∧ x < 100 := by
  intro pairs
  induction pairs with
  | nil =>
    intro ag al _ _ _ x hx
    simp [rsiSteps] at hx
  | cons hd tl ih =>
    intro ag al hag hal hmem x hx
    have hcast : (1 : ℚ) ≤ (period : ℚ) := by exact_mod_cast hp
    have hpos : (0 : ℚ) < (period : ℚ) := by linarith
    have hhd := hmem hd (List.mem_cons_self hd tl)
    have hag2 : 0 ≤ (ag * ((period : ℚ) - 1) + hd.1) / (period : ℚ) :=
      div_nonneg (add_nonneg (mul_nonneg hag (by linarith)) hhd.1) (le_of_lt hpos)
    have hal2 : 0 ≤ (al * ((period : ℚ) - 1) + hd.2) / (period : ℚ) :=
      div_nonneg (add_nonneg (mul_nonneg hal (by linarith)) hhd.2) (le_of_lt hpos)
    simp only [rsiSteps] at hx
    rcases List.mem_cons.mp hx with rfl | hx2
    · exact rsiFrom_bounds _ _ hag2 hal2
    · exact ih _ _ hag2 hal2 (fun p hp2 => hmem p (List.mem_cons_of_mem _ hp2)) x hx2

/-- C10: every defined value produced by the RSI indicator lies in the
half-open interval `[0, 100)` — the gain/loss averages are non-negative, so
`RS >= 0`, and even the zero-average-loss convention `RS = 100` stays
strictly below 100. -/
theorem rsi_series_bounds (values : List ℚ) (period : ℕ) (hp : 1 ≤ period)
    (i : ℕ) (x : ℚ) (hx : (rsi_series values period).getD i none = some x) :
    0 ≤ x ∧ x < 100 := by
  simp only [rsi_series] at hx
  by_cases hlen : values.length < period + 1
  · rw [if_pos hlen] at hx
    have hmem := getD_some_mem _ _ _ hx
    exact absurd (List.eq_of_mem_replicate hmem) (fun h => Option.noConfusion h)
  · rw [if_neg hlen] at hx
    have hmem := getD_some_mem _ _ _ hx
    have hper : (0 : ℚ) ≤ (period : ℚ) := Nat.cast_nonneg period
    have hag0 : 0 ≤ (((gainsLosses values).map Prod.fst).take period).sum / (period : ℚ) := by
      refine div_nonneg (List.sum_nonneg fun y hy => ?_) hper
      obtain ⟨p, hp2, rfl⟩ := List.mem_map.mp (List.mem_of_mem_take hy)
      exact (gainsLosses_nonneg values p hp2).1
    have hal0 : 0 ≤ (((gainsLosses values).map Prod.snd).take period).sum / (period : ℚ) := by
      refine div_nonneg (List.sum_nonneg fun y hy => ?_) hper
      obtain ⟨p, hp2, rfl⟩ := List.mem_map.mp (List.mem_of_mem_take hy)
      exact (gainsLosses_nonneg values p hp2).2
    rcases List.mem_append.mp hmem with hrep | hrest
    · exact absurd (List.eq_of_mem_replicate hrep) (fun h => Option.noConfusion h)
    · rw [List.map_cons] at hrest
      rcases List.mem_cons.mp hrest with hhead | htail
      · have hx2 := Option.some_injective _ hhead
        rw [hx2]
        exact rsiFrom_bounds _ _ hag0 hal0
      · obtain ⟨y, hy, hxy⟩ := List.mem_map.mp htail
        have hyx : y = x := Option.some_injective _ hxy
        rw [← hyx]
        exact rsiSteps_bounds period hp _ _ _ hag0 hal0
          (fun p hp2 => gainsLosses_nonneg values p (List.mem_of_mem_drop hp2)) y hy

/-- C10 witness: on closes `[1, 2, 1]` with period 1 the RSI at index 1 is
defined (its value is `10000/101`, via the zero-average-loss convention) and
lies in `[0, 100)`. -/
theorem rsi_series_bounds_witness :
    (rsi_series [1, 2, 1] 1).getD 1 none = some (10000 / 101) ∧
    0 ≤ (10000 / 101 : ℚ) ∧ (10000 / 101 : ℚ) < 100 :=
  ⟨by decide, rsi_series_bounds [1, 2, 1] 1 (by decide) 1 (10000 / 101) (by decide)⟩

/-- Helper: the ATR is defined exactly from the seed index `period - 1` up to
the series length, provided the series is at least `period` long. -/
theorem atrAt_isSome_iff (highs lows closes : List ℚ) (period i : ℕ) :
    (atrAt highs lows closes period i).isSome = true ↔
      (period ≤ closes.length ∧ i < closes.length ∧ period ≤ i + 1) := by
  unfold atrAt
  by_cases hcond : closes.length < period ∨ closes.length ≤ i ∨ i + 1 < period
  · rw [if_pos hcond]
    simp only [Option.isSome_none, Bool.false_eq_true, false_iff]
    omega
  · rw [if_neg hcond]
    simp only [Option.isSome_some, true_iff]
    omega

/-- Helper: the basic upper band is defined exactly where the ATR is. -/
theorem basicUpperAt_isSome (highs lows closes : List ℚ) (period : ℕ)
    (mult : ℚ) (i : ℕ) :
    (basicUpperAt highs lows closes period mult i).isSome =
      (atrAt highs lows closes period i).isSome := by
  unfold basicUpperAt
  exact Option.isSome_map'

/-- Helper: the basic lower band is defined exactly where the ATR is. -/
theorem basicLowerAt_isSome (highs lows closes : List ℚ) (period : ℕ)
    (mult : ℚ) (i : ℕ) :
    (basicLowerAt highs lows closes period mult i).isSome =
      (atrAt highs lows closes period i).isSome := by
  unfold basicLowerAt
  exact Option.isSome_map'

/-- Helper: the ratcheted final upper band is defined exactly where the basic
band is. -/
theorem finalUpperAt_isSome (highs lows closes : List ℚ) (period : ℕ)
    (mult : ℚ) : ∀ i,
    (finalUpperAt highs lows closes period mult i).isSome =
      (basicUpperAt highs lows closes period mult i).isSome := by
  intro i
  induction i with
  | zero => rfl
  | succ n _ =>
    rw [finalUpperAt]
    cases hb : basicUpperAt highs lows closes period mult (n + 1) with
    | none => rfl
    | some bu =>
      cases hf : finalUpperAt highs lows closes period mult n with
      | none => rfl
      | some prev =>
        show (if bu < prev ∨ prev < closes.getD n 0 then some bu
          else some prev).isSome = (some bu).isSome
        by_cases hc : bu < prev ∨ prev < closes.getD n 0
        · rw [if_pos hc]
        · rw [if_neg hc]
          rfl

/-- Helper: the ratcheted final lower band is defined exactly where the basic
band is. -/
theorem finalLowerAt_isSome (highs lows closes : List ℚ) (period : ℕ)
    (mult : ℚ) : ∀ i,
    (finalLowerAt highs lows closes period mult i).isSome =
      (basicLowerAt highs lows closes period mult i).isSome := by
  intro i
  induction i with
  | zero => rfl
  | succ n _ =>
    rw [finalLowerAt]
    cases hb : basicLowerAt highs lows closes period mult (n + 1) with
    | none => rfl
    | some bl =>
      cases hf : finalLowerAt highs lows closes period mult n with
      | none => rfl
      | some prev =>
        show (if prev < bl ∨ closes.getD n 0 < prev then some bl
          else some prev).isSome = (some bl).isSome
        by_cases hc : prev < bl ∨ closes.getD n 0 < prev
        · rw [if_pos hc]
        · rw [if_neg hc]
          rfl

/-- Helper: per index, the ATR being defined forces exactly one of the two
supertrend outputs, and the ATR being undefined forces neither. -/
theorem supertrend_pointwise (highs lows closes : List ℚ) (period : ℕ)
    (mult : ℚ) (i : ℕ) :
    ((atrAt highs lows closes period i).isSome = true →
      ((uptrendAt highs lows closes period mult i).isSome = true ∧
        downtrendAt highs lows closes period mult i = none) ∨
      (uptrendAt highs lows closes period mult i = none ∧
        (downtrendAt highs lows closes period mult i).isSome = true)) ∧
    (atrAt highs lows closes period i = none →
      uptrendAt highs lows closes period mult i = none ∧
      downtrendAt highs lows closes period mult i = none) := by
  constructor
  · intro hat
    have hfu : (finalUpperAt highs lows closes period mult i).isSome = true := by
      rw [finalUpperAt_isSome, basicUpperAt_isSome, hat]
    have hfl : (finalLowerAt highs lows closes period mult i).isSome = true := by
      rw [finalLowerAt_isSome, basicLowerAt_isSome, hat]
    obtain ⟨fu, hfu2⟩ := Option.isSome_iff_exists.mp hfu
    obtain ⟨fl, hfl2⟩ := Option.isSome_iff_exists.mp hfl
    unfold uptrendAt downtrendAt
    rw [hfu2, hfl2]
    cases hup : isUptrendAt highs lows closes period mult i with
    | true => exact Or.inl ⟨rfl, rfl⟩
    | false => exact Or.inr ⟨rfl, rfl⟩
  · intro hat
    have hfu : finalUpperAt highs lows closes period mult i = none := by
      have := finalUpperAt_isSome highs lows closes period mult i
      rw [basicUpperAt_isSome, hat] at this
      exact Option.not_isSome_iff_eq_none.mp (by rw [this]; decide)
    unfold uptrendAt downtrendAt
    rw [hfu]
    exact ⟨rfl, rfl⟩

/-- Helper: indexing the range-mapped output series. -/
theorem rangeMap_getD (f : ℕ → Option ℚ) (n i : ℕ) (hi : i < n) :
    ((List.range n).map f).getD i none = f i := by
  rw [List.getD_eq_getElem?_getD, List.getElem?_map, List.getElem?_range hi]
  rfl

/-- C5: for every input series, period of at least 1 (the Python raises a
`ZeroDivisionError` before returning anything for `period = 0`) and
multiplier, at every index with at least `period` bars of history exactly one
of the uptrend (support) and downtrend (resistance) series is defined, never
both, and at every earlier warm-up index neither is defined. -/
theorem supertrend_exactly_one (highs lows closes : List ℚ) (period : ℕ)
    (mult : ℚ) (_hp : 1 ≤ period) (i : ℕ) (hi : i < closes.length) :
    (period ≤ i + 1 →
      ((((supertrend_series highs lows closes period mult).1.getD i none).isSome = true ∧
          (supertrend_series highs lows closes period mult).2.getD i none = none) ∨
        ((supertrend_series highs lows closes period mult).1.getD i none = none ∧
          ((supertrend_series highs lows closes period mult).2.getD i none).isSome = true))) ∧
    (i + 1 < period →
      (supertrend_series highs lows closes period mult).1.getD i none = none ∧
      (supertrend_series highs lows closes period mult).2.getD i none = none) := by
  have hup : (supertrend_series highs lows closes period mult).1.getD i none =
      uptrendAt highs lows closes period mult i :=
    rangeMap_getD _ _ _ hi
  have hdown : (supertrend_series highs lows closes period mult).2.getD i none =
      downtrendAt highs lows closes period mult i :=
    rangeMap_getD _ _ _ hi
  rw [hup, hdown]
  constructor
  · intro hper
    refine (supertrend_pointwise highs lows closes period mult i).1 ?_
    rw [atrAt_isSome_iff]
    omega
  · intro hwarm
    refine (supertrend_pointwise highs lows closes period mult i).2 ?_
    unfold atrAt
    rw [if_pos (by omega)]

/-- C5 witness: with period 2 on a 3-bar series, index 0 (warm-up) has neither
series defined and index 2 has exactly the uptrend series defined. -/
theorem supertrend_exactly_one_witness :
    ((supertrend_series [2, 2, 2] [1, 1, 1] [1, 1, 1] 2 1).1.getD 0 none = none ∧
      (supertrend_series [2, 2, 2] [1, 1, 1] [1, 1, 1] 2 1).2.getD 0 none = none) ∧
    ((supertrend_series [2, 2, 2] [1, 1, 1] [1, 1, 1] 2 1).1.getD 2 none).isSome = true ∧
    (supertrend_series [2, 2, 2] [1, 1, 1] [1, 1, 1] 2 1).2.getD 2 none = none := by
  refine ⟨(supertrend_exactly_one [2, 2, 2] [1, 1, 1] [1, 1, 1] 2 1 (by decide) 0
    (by decide)).2 (by decide), ?_⟩
  rcases (supertrend_exactly_one [2, 2, 2] [1, 1, 1] [1, 1, 1] 2 1 (by decide) 2
    (by decide)).1 (by decide) with h | h
  · exact h
  · exact absurd h.1 (by decide)

end

end CbotFarm
